import Mathlib

/-!
Verification of the batch-job gateway (CSV ingestion service).

Shallow embedding of the Python source under `src/gateway/`:
* `workflows.py` — `init_job_activity` (chunk planner + job init),
  `process_chunk_activity` (row validation, bulk insert, counter update),
  `complete_job_activity`, and the `ProcessJobWorkflow` driver loop;
* `main.py` — `start_job`, `job_status`, `transactions` endpoints;
* `websocket_manager.py` — `ConnectionManager.broadcast_to_user`.

Machine floats (Python `float`) are modelled as rationals `ℚ`; parse
results of external library calls (`datetime.fromisoformat`, `float(...)`)
are modelled as `Option` fields of the raw CSV row, so a `try/except`
around a parse becomes a `match` on that field.
-/

namespace Gateway

/-- Job lifecycle states, as stored in `Job.status` (`models.py`). -/
inductive JobStatus where
  | UPLOADED
  | RUNNING
  | COMPLETED
  | FAILED
deriving DecidableEq, Repr

/-- One raw CSV row as seen by the chunk processor.  The `amount` and
`timestamp` fields carry the result of the Python parse attempts
(`float(row["amount"])`, `datetime.fromisoformat(str(row["timestamp"]))`):
`none` means the parse raised.  Timestamps are abstracted to `Nat`. -/
structure RawRow where
  transaction_id : String
  user_id : String
  amount : Option ℚ
  timestamp : Option Nat
deriving DecidableEq, Repr

/-- A stored `Transaction` row (`models.py`), as produced by the chunk
processor. -/
structure TxRecord where
  job_id : Nat
  transaction_id : String
  user_id : String
  amount : ℚ
  timestamp : Nat
  is_valid : Bool
  is_suspicious : Bool
  error_message : Option String
deriving DecidableEq, Repr

/-- Row validation, from `process_chunk_activity` (`workflows.py` lines
190–232).  `now` is the wall-clock time substituted as a placeholder when
the timestamp fails to parse.  Mirrors the source control flow:
timestamp parse first (error "Invalid timestamp"), then amount parse
(error "Invalid amount" only when not already invalid — first error
wins), then the suspicious check on the amount parse result alone. -/
def validateRow (jid now : Nat) (r : RawRow) : TxRecord :=
  let tsOk := r.timestamp.isSome
  let ts := r.timestamp.getD now
  let err₀ : Option String := if tsOk then none else some "Invalid timestamp"
  match r.amount with
  | some a =>
      { job_id := jid, transaction_id := r.transaction_id, user_id := r.user_id
        amount := a, timestamp := ts, is_valid := tsOk
        is_suspicious := decide (a < 0) || decide (50000 < a)
        error_message := err₀ }
  | none =>
      { job_id := jid, transaction_id := r.transaction_id, user_id := r.user_id
        amount := 0, timestamp := ts, is_valid := false
        is_suspicious := false
        error_message := if tsOk then some "Invalid amount" else err₀ }

/-- Dynamic batch size from `init_job_activity` (`workflows.py` lines
97–114).  `T` is the total row count, `S` the file size in bytes.
The source computes `int(target_chunk_mb * total_records / (S / 2^20))`
when the file size is positive, falls back to the density default
`int(2 * 2000) = 4000` when it is zero, and clamps to `[100, 5000]`. -/
def batchSize (T S : Nat) : Nat :=
  let raw := if 0 < S then 2 * 1048576 * T / S else 2 * 2000
  max 100 (min raw 5000)

/-- Chunk count `math.ceil(total_records / batch_size)` from
`init_job_activity` (`workflows.py` line 117), as natural ceiling
division. -/
def totalBatches (T S : Nat) : Nat :=
  (T + batchSize T S - 1) / batchSize T S

/-- The mutable per-job database state the activities touch: the `Job`
row's status and counters (`models.py`) plus the `Transaction` rows
stored so far, in insertion order. -/
structure JobState where
  status : JobStatus
  total_records : Nat
  processed_records : Nat
  valid_records : Nat
  invalid_records : Nat
  suspicious_records : Nat
  transactions : List TxRecord
deriving DecidableEq, Repr

/-- Row range of chunk `chunkIndex`: `start_row = chunk_index * batch_size`,
`end_row = min(start_row + batch_size, total_records)`, and the CSV read
returns exactly the data rows in `[start_row, end_row)`
(`workflows.py` lines 173–183). -/
def chunkRows (csv : List RawRow) (chunkIndex B total : Nat) : List RawRow :=
  let start := chunkIndex * B
  let stop := min (start + B) total
  (csv.drop start).take (stop - start)

/-- `process_chunk_activity` (`workflows.py` lines 143–290): validate every
row of the chunk, append the resulting `Transaction` rows in row order
(`bulk_save_objects`), and add the chunk-local tallies to the job's
counters.  The trailing progress broadcast does not touch this state. -/
def process_chunk_activity (jid now : Nat) (csv : List RawRow)
    (chunkIndex B total : Nat) (st : JobState) : JobState :=
  let txs := (chunkRows csv chunkIndex B total).map (validateRow jid now)
  { st with
    processed_records := st.processed_records + txs.length
    valid_records := st.valid_records + (txs.filter (·.is_valid)).length
    invalid_records := st.invalid_records + (txs.filter (fun t => !t.is_valid)).length
    suspicious_records := st.suspicious_records + (txs.filter (·.is_suspicious)).length
    transactions := st.transactions ++ txs }

/-- `init_job_activity` (`workflows.py` lines 119–126): set the job
RUNNING, record `total_records = len(df)` and zero all counters. -/
def init_job_activity (csv : List RawRow) (st : JobState) : JobState :=
  { st with
    status := .RUNNING
    total_records := csv.length
    processed_records := 0
    valid_records := 0
    invalid_records := 0
    suspicious_records := 0 }

/-- `complete_job_activity` (`workflows.py` lines 293–310): mark COMPLETED. -/
def complete_job_activity (st : JobState) : JobState :=
  { st with status := .COMPLETED }

/-- State after `init_job_activity` followed by the first `k` chunk
activities of `ProcessJobWorkflow.run`, executed in ascending chunk
order (`workflows.py` lines 388–403). -/
def stateAfterChunks (jid now : Nat) (csv : List RawRow) (S : Nat)
    (k : Nat) (st : JobState) : JobState :=
  let B := batchSize csv.length S
  (List.range k).foldl
    (fun s i => process_chunk_activity jid now csv i B csv.length s)
    (init_job_activity csv st)

/-- The whole `ProcessJobWorkflow.run`: init, all `total_batches` chunks in
order, then complete (`workflows.py` lines 357–416). -/
def runWorkflow (jid now : Nat) (csv : List RawRow) (S : Nat)
    (st : JobState) : JobState :=
  complete_job_activity
    (stateAfterChunks jid now csv S (totalBatches csv.length S) st)

/-- Outcome of `POST /jobs/{id}/start` (`main.py` lines 225–251). -/
inductive StartResult where
  | accepted (mode : String)
  | alreadyRunning
  | notFound
deriving DecidableEq, Repr

/-- `start_job` (`main.py` lines 225–251): 404 when the job id is unknown,
400 "Already running" when the job is RUNNING, otherwise accepted — via
Temporal when the client is connected, else as a background task. -/
def start_job (job? : Option JobState) (temporalConnected : Bool) : StartResult :=
  match job? with
  | none => .notFound
  | some job =>
      if job.status = .RUNNING then .alreadyRunning
      else .accepted (if temporalConnected then "temporal" else "background")

/-- Response body of `GET /jobs/{id}` (`main.py` lines 257–276). -/
structure StatusResponse where
  status : JobStatus
  total_records : Nat
  processed_records : Nat
  valid_records : Nat
  invalid_records : Nat
  suspicious_records : Nat
  progress_percent : Nat
deriving DecidableEq, Repr

/-- How a request handler can fail: a raised `HTTPException` (handled,
returned to the caller with a status code and detail) versus an uncaught
Python `AttributeError` from dereferencing `None` (unhandled, surfaces
as a 500). -/
inductive ApiError where
  | http (code : Nat) (detail : String)
  | attributeErrorOnNone
deriving DecidableEq, Repr

/-- `job_status` (`main.py` lines 257–276): fetches the job and reads its
fields with no `None` check, so a missing job id raises `AttributeError`
at `job.total_records`.  Percent is `int(processed/total*100)` when
`total_records` is truthy, else 0. -/
def job_status (job? : Option JobState) : Except ApiError StatusResponse :=
  match job? with
  | none => .error .attributeErrorOnNone
  | some job =>
      .ok { status := job.status
            total_records := job.total_records
            processed_records := job.processed_records
            valid_records := job.valid_records
            invalid_records := job.invalid_records
            suspicious_records := job.suspicious_records
            progress_percent :=
              if job.total_records ≠ 0 then
                job.processed_records * 100 / job.total_records
              else 0 }

/-- `GET /jobs/{id}/transactions` (`main.py` lines 283–305): filter stored
rows by job id, then by validity/suspicion when requested, then apply
`offset((page-1)*size).limit(size)`.  The store is modelled as the list
of transactions in insertion order (the source file's row order). -/
def transactionsQuery (store : List TxRecord) (jid : Nat)
    (filt : Option String) (page size : Nat) : List TxRecord :=
  let q := store.filter (fun t => t.job_id = jid)
  let q := if filt = some "valid" then q.filter (·.is_valid) else q
  let q := if filt = some "invalid" then q.filter (fun t => !t.is_valid) else q
  let q := if filt = some "suspicious" then q.filter (·.is_suspicious) else q
  (q.drop ((page - 1) * size)).take size

/-! ## WebSocket connection manager (`websocket_manager.py`) -/

/-- Abstract WebSocket connection ids. -/
abbrev Conn := Nat

/-- The manager's `active_connections` dict, `user_id ↦` list of live
connections; a user with no entry maps to `[]`. -/
def ConnMap := Nat → List Conn

/-- The send loop of `broadcast_to_user` (`websocket_manager.py` lines
45–49): try `send_text` on each connection in registration order; a
connection whose send raises is appended to `dead_connections`.
`fails c = true` models "`await websocket.send_text` raised".  Returns
(connections attempted, dead connections in iteration order). -/
def sendLoop (fails : Conn → Bool) : List Conn → List Conn × List Conn
  | [] => ([], [])
  | ws :: rest =>
      let (sent, dead) := sendLoop fails rest
      (ws :: sent, if fails ws then ws :: dead else dead)

/-- The cleanup loop of `broadcast_to_user` (`websocket_manager.py` lines
52–57): `list.remove(ws)` for each dead connection — remove the first
occurrence, `ValueError` (absent element) swallowed, which is exactly
`List.erase`. -/
def removeDead (conns dead : List Conn) : List Conn :=
  dead.foldl (fun l c => l.erase c) conns

/-- `ConnectionManager.broadcast_to_user` (`websocket_manager.py` lines
37–57): send the serialized event to every connection registered for
`uid`, collect the connections whose send raised, and remove them from
the user's entry.  Returns the list of attempted deliveries and the
updated registry.  (The early return when `uid` has no entry coincides
with running the loops on `[]`.) -/
def broadcast_to_user (m : ConnMap) (uid : Nat) (fails : Conn → Bool) :
    List Conn × ConnMap :=
  ((sendLoop fails (m uid)).1,
   fun u => if u = uid then removeDead (m uid) (sendLoop fails (m uid)).2
            else m u)

/-! ## Helper lemmas -/

/-- A filter and its complement partition a list's length. -/
theorem length_filter_add_length_filter_not {α : Type} (p : α → Bool)
    (l : List α) :
    (l.filter p).length + (l.filter (fun a => !p a)).length = l.length := by
  induction l with
  | nil => simp
  | cons a t ih =>
      by_cases h : p a <;> simp [List.filter_cons, h] <;> omega

/-- The batch size is always at least the lower clamp. -/
theorem batchSize_ge (T S : Nat) : 100 ≤ batchSize T S := by
  simp [batchSize]

/-- The batch size is always at most the upper clamp. -/
theorem batchSize_le (T S : Nat) : batchSize T S ≤ 5000 := by
  simp [batchSize]

/-- The batch size is positive. -/
theorem batchSize_pos (T S : Nat) : 0 < batchSize T S :=
  lt_of_lt_of_le (by norm_num) (batchSize_ge T S)

/-- Ceiling division covers the numerator: `T ≤ ceil(T/B) * B`. -/
theorem le_totalBatches_mul (T S : Nat) :
    T ≤ totalBatches T S * batchSize T S := by
  have hB := batchSize_pos T S
  unfold totalBatches
  rw [Nat.mul_comm]
  have h1 := Nat.div_add_mod (T + batchSize T S - 1) (batchSize T S)
  have h2 := Nat.mod_lt (T + batchSize T S - 1) hB
  omega

/-- Ceiling division is the least cover: any `m` with `T ≤ m * B`
dominates `ceil(T/B)`. -/
theorem totalBatches_le_of_cover (T S m : Nat)
    (h : T ≤ m * batchSize T S) : totalBatches T S ≤ m := by
  have hB := batchSize_pos T S
  unfold totalBatches
  have hz : (batchSize T S - 1) / batchSize T S = 0 :=
    Nat.div_eq_of_lt (by omega)
  have key : (T + batchSize T S - 1) / batchSize T S
      ≤ (batchSize T S - 1 + m * batchSize T S) / batchSize T S :=
    Nat.div_le_div_right (by omega)
  rwa [Nat.add_mul_div_right _ _ hB, hz, Nat.zero_add] at key

/-- Length of the row range of one chunk. -/
theorem chunkRows_length (csv : List RawRow) (i B : Nat) :
    (chunkRows csv i B csv.length).length
      = min (i * B + B) csv.length - i * B := by
  simp only [chunkRows, List.length_take, List.length_drop]
  omega

/-- Unfolding one step of the chunk loop. -/
theorem stateAfterChunks_succ (jid now : Nat) (csv : List RawRow) (S : Nat)
    (k : Nat) (st : JobState) :
    stateAfterChunks jid now csv S (k + 1) st
      = process_chunk_activity jid now csv k (batchSize csv.length S)
          csv.length (stateAfterChunks jid now csv S k st) := by
  simp [stateAfterChunks, List.range_succ]

/-- `process_chunk_activity` preserves the two counter invariants. -/
theorem process_chunk_activity_inv (jid now : Nat) (csv : List RawRow)
    (i B tot : Nat) (st : JobState)
    (h₁ : st.processed_records = st.valid_records + st.invalid_records)
    (h₂ : st.suspicious_records ≤ st.processed_records) :
    (process_chunk_activity jid now csv i B tot st).processed_records
        = (process_chunk_activity jid now csv i B tot st).valid_records
          + (process_chunk_activity jid now csv i B tot st).invalid_records
      ∧ (process_chunk_activity jid now csv i B tot st).suspicious_records
        ≤ (process_chunk_activity jid now csv i B tot st).processed_records := by
  have hpart := length_filter_add_length_filter_not (·.is_valid)
    ((chunkRows csv i B tot).map (validateRow jid now))
  have hsusp := List.length_filter_le (·.is_suspicious)
    ((chunkRows csv i B tot).map (validateRow jid now))
  simp only [process_chunk_activity]
  omega

/-- The counter invariants hold after any number of chunk steps. -/
theorem stateAfterChunks_inv (jid now : Nat) (csv : List RawRow) (S : Nat)
    (st : JobState) (k : Nat) :
    (stateAfterChunks jid now csv S k st).processed_records
        = (stateAfterChunks jid now csv S k st).valid_records
          + (stateAfterChunks jid now csv S k st).invalid_records
      ∧ (stateAfterChunks jid now csv S k st).suspicious_records
        ≤ (stateAfterChunks jid now csv S k st).processed_records := by
  induction k with
  | zero => simp [stateAfterChunks, init_job_activity]
  | succ k ih =>
      rw [stateAfterChunks_succ]
      exact process_chunk_activity_inv _ _ _ _ _ _ _ ih.1 ih.2

/-- After `k` chunks, exactly `min (k*B) T` rows have been processed. -/
theorem stateAfterChunks_processed (jid now : Nat) (csv : List RawRow)
    (S : Nat) (st : JobState) (k : Nat) :
    (stateAfterChunks jid now csv S k st).processed_records
      = min (k * batchSize csv.length S) csv.length := by
  induction k with
  | zero => simp [stateAfterChunks, init_job_activity]
  | succ k ih =>
      rw [stateAfterChunks_succ]
      simp only [process_chunk_activity, List.length_map, ih,
        chunkRows_length, Nat.succ_mul]
      omega

/-- `total_records` is pinned to the CSV length for the whole run. -/
theorem stateAfterChunks_total (jid now : Nat) (csv : List RawRow) (S : Nat)
    (st : JobState) (k : Nat) :
    (stateAfterChunks jid now csv S k st).total_records = csv.length := by
  induction k with
  | zero => simp [stateAfterChunks, init_job_activity]
  | succ k ih =>
      rw [stateAfterChunks_succ]
      simpa [process_chunk_activity] using ih

/-- The send loop attempts delivery on every registered connection. -/
theorem sendLoop_fst (fails : Conn → Bool) (l : List Conn) :
    (sendLoop fails l).1 = l := by
  induction l with
  | nil => rfl
  | cons ws rest ih => simp [sendLoop, ih]

/-- The dead-connection list is exactly the failing connections, in
iteration order. -/
theorem sendLoop_snd (fails : Conn → Bool) (l : List Conn) :
    (sendLoop fails l).2 = l.filter fails := by
  induction l with
  | nil => rfl
  | cons ws rest ih =>
      by_cases h : fails ws <;> simp [sendLoop, ih, List.filter_cons, h]

/-- Erasing elements that all differ from the head leaves the head. -/
theorem removeDead_cons_of_ne (a : Conn) (l ds : List Conn)
    (h : ∀ d ∈ ds, d ≠ a) :
    removeDead (a :: l) ds = a :: removeDead l ds := by
  induction ds generalizing l with
  | nil => rfl
  | cons d ds ih =>
      have hda : d ≠ a := h d (List.mem_cons_self d ds)
      have : (a :: l).erase d = a :: l.erase d := by
        rw [List.erase_cons]
        simp [Ne.symm hda]
      simp only [removeDead, List.foldl_cons, this]
      exact ih (l.erase d) (fun x hx => h x (List.mem_cons_of_mem d hx))

/-- Removing the collected dead connections amounts to filtering out the
failing ones. -/
theorem removeDead_filter (fails : Conn → Bool) (l : List Conn) :
    removeDead l (l.filter fails) = l.filter (fun c => !fails c) := by
  induction l with
  | nil => rfl
  | cons a t ih =>
      by_cases h : fails a
      · simp only [List.filter_cons, h, if_pos]
        simp only [removeDead, List.foldl_cons, List.erase_cons_head]
        simpa [List.filter_cons, h] using ih
      · simp only [List.filter_cons, h]
        rw [if_neg (by simp [h])]
        rw [removeDead_cons_of_ne a t (t.filter fails) ?_]
        · simp [List.filter_cons, h, ih]
        · intro d hd
          have := List.of_mem_filter hd
          intro hcontra
          rw [hcontra] at this
          simp [h] at this

/-! ## Sample inputs for concrete instantiations -/

/-- The spec's two-row example CSV: `T1,U1,120.50,2025-01-01T10:00:00` and
`T2,U2,60000,2025-01-01T10:05:00` (timestamps abstracted to `0` and `300`). -/
def sampleCsv : List RawRow :=
  [⟨"T1", "U1", some (241/2 : ℚ), some 0⟩,
   ⟨"T2", "U2", some 60000, some 300⟩]

/-- A freshly uploaded job row, before any processing. -/
def freshJob : JobState :=
  { status := .UPLOADED, total_records := 0, processed_records := 0
    valid_records := 0, invalid_records := 0, suspicious_records := 0
    transactions := [] }

/-- A job row currently being processed. -/
def runningJob : JobState :=
  { freshJob with status := .RUNNING }

/-- A one-row CSV (amount 5, valid timestamp) for the retry scenario. -/
def oneRowCsv : List RawRow := [⟨"T1", "U1", some 5, some 0⟩]

/-- State after executing chunk 0 of `oneRowCsv` once, from a freshly
initialised job (the normal, crash-free execution). -/
def chunkOnce : JobState :=
  process_chunk_activity 1 0 oneRowCsv 0 100 1 (init_job_activity oneRowCsv freshJob)

/-- State after executing chunk 0 of `oneRowCsv` a second time — the
simulated retry of `process_chunk_activity` after a crash between the
commit and the activity-completion acknowledgement. -/
def chunkTwice : JobState :=
  process_chunk_activity 1 0 oneRowCsv 0 100 1 chunkOnce

/-! ## Claims -/

/-- C1: for every job, after every chunk's counter update and in the final
state after completion, `processed_records = valid_records +
invalid_records` and `suspicious_records ≤ processed_records`; and every
job that reaches COMPLETED has `processed_records = total_records`. -/
theorem C1_counter_invariants (jid now : Nat) (csv : List RawRow) (S : Nat)
    (st : JobState) (k : Nat) (hk : k ≤ totalBatches csv.length S) :
    ((stateAfterChunks jid now csv S k st).processed_records
        = (stateAfterChunks jid now csv S k st).valid_records
          + (stateAfterChunks jid now csv S k st).invalid_records
      ∧ (stateAfterChunks jid now csv S k st).suspicious_records
        ≤ (stateAfterChunks jid now csv S k st).processed_records)
    ∧ ((runWorkflow jid now csv S st).processed_records
        = (runWorkflow jid now csv S st).valid_records
          + (runWorkflow jid now csv S st).invalid_records
      ∧ (runWorkflow jid now csv S st).suspicious_records
        ≤ (runWorkflow jid now csv S st).processed_records
      ∧ (runWorkflow jid now csv S st).status = .COMPLETED
      ∧ (runWorkflow jid now csv S st).processed_records
        = (runWorkflow jid now csv S st).total_records) := by
  refine ⟨stateAfterChunks_inv jid now csv S st k, ?_⟩
  have hinv := stateAfterChunks_inv jid now csv S st (totalBatches csv.length S)
  have hproc := stateAfterChunks_processed jid now csv S st
    (totalBatches csv.length S)
  have htot := stateAfterChunks_total jid now csv S st
    (totalBatches csv.length S)
  have hcover := le_totalBatches_mul csv.length S
  simp only [runWorkflow, complete_job_activity]
  refine ⟨hinv.1, hinv.2, by simp, ?_⟩
  rw [hproc, htot]
  omega

/-- C1 witness: the invariants and the completion identity, instantiated on
the spec's two-row example CSV. -/
theorem C1_counter_invariants_witness :
    1 ≤ totalBatches sampleCsv.length 38
    ∧ (((stateAfterChunks 1 0 sampleCsv 38 1 freshJob).processed_records
          = (stateAfterChunks 1 0 sampleCsv 38 1 freshJob).valid_records
            + (stateAfterChunks 1 0 sampleCsv 38 1 freshJob).invalid_records
        ∧ (stateAfterChunks 1 0 sampleCsv 38 1 freshJob).suspicious_records
          ≤ (stateAfterChunks 1 0 sampleCsv 38 1 freshJob).processed_records)
      ∧ ((runWorkflow 1 0 sampleCsv 38 freshJob).processed_records
          = (runWorkflow 1 0 sampleCsv 38 freshJob).valid_records
            + (runWorkflow 1 0 sampleCsv 38 freshJob).invalid_records
        ∧ (runWorkflow 1 0 sampleCsv 38 freshJob).suspicious_records
          ≤ (runWorkflow 1 0 sampleCsv 38 freshJob).processed_records
        ∧ (runWorkflow 1 0 sampleCsv 38 freshJob).status = .COMPLETED
        ∧ (runWorkflow 1 0 sampleCsv 38 freshJob).processed_records
          = (runWorkflow 1 0 sampleCsv 38 freshJob).total_records)) :=
  ⟨by decide, C1_counter_invariants 1 0 sampleCsv 38 freshJob 1 (by decide)⟩

/-- C2 (amended): the batch size is clamped to `[100, 5000]` and the chunk
count is the ceiling `ceil(T/B)` (characterised as the least cover);
but when `T = 0` the batch size resolves to the lower clamp 100 for a
non-empty file, and to the density default 4000 for an empty file — not
to the upper clamp 5000. -/
theorem C2_chunk_planner (T S : Nat) :
    100 ≤ batchSize T S ∧ batchSize T S ≤ 5000
    ∧ T ≤ totalBatches T S * batchSize T S
    ∧ (∀ m, T ≤ m * batchSize T S → totalBatches T S ≤ m)
    ∧ (T = 0 → batchSize T S = if S = 0 then 4000 else 100) := by
  refine ⟨batchSize_ge T S, batchSize_le T S, le_totalBatches_mul T S,
    fun m hm => totalBatches_le_of_cover T S m hm, ?_⟩
  rintro rfl
  by_cases hS : S = 0
  · simp [batchSize, hS]
  · simp [batchSize, hS, Nat.pos_of_ne_zero hS]

/-- C2 counterexample: for `T = 0` and a 1 MiB file the batch size is the
lower clamp 100, not the upper clamp 5000 as the claim states. -/
theorem C2_chunk_planner_counterexample :
    batchSize 0 1048576 = 100 ∧ batchSize 0 1048576 ≠ 5000 := by decide

/-- C2 witness: the least-cover and `T = 0` conjuncts instantiated at
`T = 0`, `S = 1048576`. -/
theorem C2_chunk_planner_witness :
    (0 ≤ 1 * batchSize 0 1048576 ∧ totalBatches 0 1048576 ≤ 1)
    ∧ batchSize 0 1048576 = if (1048576 : Nat) = 0 then 4000 else 100 :=
  ⟨⟨Nat.zero_le _, (C2_chunk_planner 0 1048576).2.2.2.1 1 (Nat.zero_le _)⟩,
   (C2_chunk_planner 0 1048576).2.2.2.2 rfl⟩

/-- C3 (code bug): re-executing chunk 0 after a simulated crash doubles the
job's counters and duplicates the stored transactions —
`process_chunk_activity` has no dedup keyed by (job id, chunk index), so
a retry is not a no-op, contradicting the spec's idempotency
requirement. -/
theorem C3_chunk_retry_not_idempotent :
    chunkOnce.processed_records = 1 ∧ chunkOnce.transactions.length = 1
    ∧ chunkTwice.processed_records = 2
    ∧ chunkTwice.transactions.length = 2
    ∧ chunkTwice ≠ chunkOnce := by decide

/-- C4: starting an unknown job id reports not-found; starting a RUNNING
job is rejected with the distinguishable "already running" outcome; and
starting a freshly uploaded job is accepted. -/
theorem C4_start_job_outcomes (job : JobState) (b : Bool) :
    start_job none b = .notFound
    ∧ (job.status = .RUNNING → start_job (some job) b = .alreadyRunning)
    ∧ (job.status = .UPLOADED → ∃ m, start_job (some job) b = .accepted m) := by
  refine ⟨rfl, fun h => by simp [start_job, h], fun h => ?_⟩
  refine ⟨if b then "temporal" else "background", ?_⟩
  simp [start_job, h]

/-- C4 witness: the three outcomes at concrete jobs. -/
theorem C4_start_job_outcomes_witness :
    start_job none true = .notFound
    ∧ start_job (some runningJob) true = .alreadyRunning
    ∧ ∃ m, start_job (some freshJob) true = .accepted m :=
  ⟨(C4_start_job_outcomes freshJob true).1,
   (C4_start_job_outcomes runningJob true).2.1 rfl,
   (C4_start_job_outcomes freshJob true).2.2 rfl⟩

/-- C5: the stored `is_suspicious` flag is true exactly when the amount
parses and is `< 0` or `> 50000`, independently of validity; a row with
amount `-100` and a valid timestamp is recorded as both valid and
suspicious. -/
theorem C5_suspicious_flag (jid now : Nat) (r : RawRow) :
    ((validateRow jid now r).is_suspicious = true ↔
      ∃ a : ℚ, r.amount = some a ∧ (a < 0 ∨ 50000 < a))
    ∧ ∀ tid uid ts,
        (validateRow jid now ⟨tid, uid, some (-100), some ts⟩).is_valid = true
        ∧ (validateRow jid now ⟨tid, uid, some (-100), some ts⟩).is_suspicious
            = true := by
  constructor
  · cases hA : r.amount with
    | none => simp [validateRow, hA]
    | some a => simp [validateRow, hA]
  · intro tid uid ts
    refine ⟨by simp [validateRow], ?_⟩
    simp only [validateRow, Bool.or_eq_true, decide_eq_true_eq]
    left
    norm_num

/-- C5 witness: the `-100` row instantiated concretely. -/
theorem C5_suspicious_flag_witness :
    (validateRow 1 7 ⟨"T1", "U1", some (-100), some 5⟩).is_valid = true
    ∧ (validateRow 1 7 ⟨"T1", "U1", some (-100), some 5⟩).is_suspicious
        = true :=
  (C5_suspicious_flag 1 7 ⟨"T1", "U1", some (-100), some 5⟩).2 "T1" "U1" 5

/-- C6: a row whose amount fails to parse does not abort the chunk: it is
stored (appears among the chunk's persisted transactions) with amount
`0.0`, marked invalid, and its error message is "Invalid amount" unless
a timestamp error was already recorded, in which case the earlier
"Invalid timestamp" is kept — first error wins, one message per row. -/
theorem C6_invalid_amount (jid now : Nat) (r : RawRow)
    (h : r.amount = none) :
    (validateRow jid now r).amount = 0
    ∧ (validateRow jid now r).is_valid = false
    ∧ (validateRow jid now r).error_message
        = (if r.timestamp.isSome then some "Invalid amount"
           else some "Invalid timestamp")
    ∧ ∀ (csv : List RawRow) (i B tot : Nat) (st : JobState),
        r ∈ chunkRows csv i B tot →
        validateRow jid now r
          ∈ (process_chunk_activity jid now csv i B tot st).transactions := by
  refine ⟨by simp [validateRow, h], by simp [validateRow, h], ?_, ?_⟩
  · by_cases hts : r.timestamp.isSome <;> simp [validateRow, h, hts]
  · intro csv i B tot st hmem
    simp only [process_chunk_activity]
    exact List.mem_append_right _ (List.mem_map_of_mem _ hmem)

/-- C6 witness: a concrete unparsable-amount row with a good timestamp,
stored by a one-chunk job. -/
theorem C6_invalid_amount_witness :
    (validateRow 1 7 ⟨"T3", "U3", none, some 9⟩).amount = 0
    ∧ (validateRow 1 7 ⟨"T3", "U3", none, some 9⟩).is_valid = false
    ∧ (validateRow 1 7 ⟨"T3", "U3", none, some 9⟩).error_message
        = (if (some 9 : Option Nat).isSome then some "Invalid amount"
           else some "Invalid timestamp")
    ∧ validateRow 1 7 ⟨"T3", "U3", none, some 9⟩
        ∈ (process_chunk_activity 1 7 [⟨"T3", "U3", none, some 9⟩] 0 100 1
            freshJob).transactions :=
  ⟨(C6_invalid_amount 1 7 ⟨"T3", "U3", none, some 9⟩ rfl).1,
   (C6_invalid_amount 1 7 ⟨"T3", "U3", none, some 9⟩ rfl).2.1,
   (C6_invalid_amount 1 7 ⟨"T3", "U3", none, some 9⟩ rfl).2.2.1,
   (C6_invalid_amount 1 7 ⟨"T3", "U3", none, some 9⟩ rfl).2.2.2
     [⟨"T3", "U3", none, some 9⟩] 0 100 1 freshJob (by decide)⟩

/-- The validator stamps the parent job id on every stored transaction. -/
theorem validateRow_job_id (jid now : Nat) (r : RawRow) :
    (validateRow jid now r).job_id = jid := by
  cases hA : r.amount <;> simp [validateRow, hA]

/-- C7: a row whose timestamp fails to parse is stored invalid with error
message "Invalid timestamp" and the current wall-clock time as a
non-null placeholder; it is excluded from every `filter=valid`
transaction query and included in a `filter=invalid` query. -/
theorem C7_invalid_timestamp (jid now : Nat) (r : RawRow)
    (h : r.timestamp = none) :
    (validateRow jid now r).is_valid = false
    ∧ (validateRow jid now r).error_message = some "Invalid timestamp"
    ∧ (validateRow jid now r).timestamp = now
    ∧ (∀ (store : List TxRecord) (page size : Nat),
        validateRow jid now r
          ∉ transactionsQuery store jid (some "valid") page size)
    ∧ validateRow jid now r
        ∈ transactionsQuery [validateRow jid now r] jid (some "invalid")
            1 20 := by
  have hv : (validateRow jid now r).is_valid = false := by
    cases hA : r.amount <;> simp [validateRow, h, hA]
  refine ⟨hv, ?_, ?_, ?_, ?_⟩
  · cases hA : r.amount <;> simp [validateRow, h, hA]
  · cases hA : r.amount <;> simp [validateRow, h, hA]
  · intro store page size hmem
    simp only [transactionsQuery, if_pos rfl, if_neg (by decide : ¬(some "valid" = some "invalid")),
      if_neg (by decide : ¬(some "valid" = some "suspicious"))] at hmem
    have hq := List.drop_subset _ _ (List.take_subset _ _ hmem)
    have := (List.mem_filter.mp hq).2
    rw [hv] at this
    exact Bool.false_ne_true this
  · simp [transactionsQuery, validateRow_job_id, hv]

/-- C7 witness: a concrete unparsable-timestamp row, checked against a
singleton store for both filters. -/
theorem C7_invalid_timestamp_witness :
    (validateRow 1 7 ⟨"T4", "U4", some 10, none⟩).is_valid = false
    ∧ (validateRow 1 7 ⟨"T4", "U4", some 10, none⟩).error_message
        = some "Invalid timestamp"
    ∧ (validateRow 1 7 ⟨"T4", "U4", some 10, none⟩).timestamp = 7
    ∧ validateRow 1 7 ⟨"T4", "U4", some 10, none⟩
        ∉ transactionsQuery [validateRow 1 7 ⟨"T4", "U4", some 10, none⟩] 1
            (some "valid") 1 20
    ∧ validateRow 1 7 ⟨"T4", "U4", some 10, none⟩
        ∈ transactionsQuery [validateRow 1 7 ⟨"T4", "U4", some 10, none⟩] 1
            (some "invalid") 1 20 :=
  ⟨(C7_invalid_timestamp 1 7 ⟨"T4", "U4", some 10, none⟩ rfl).1,
   (C7_invalid_timestamp 1 7 ⟨"T4", "U4", some 10, none⟩ rfl).2.1,
   (C7_invalid_timestamp 1 7 ⟨"T4", "U4", some 10, none⟩ rfl).2.2.1,
   (C7_invalid_timestamp 1 7 ⟨"T4", "U4", some 10, none⟩ rfl).2.2.2.1
     [validateRow 1 7 ⟨"T4", "U4", some 10, none⟩] 1 20,
   (C7_invalid_timestamp 1 7 ⟨"T4", "U4", some 10, none⟩ rfl).2.2.2.2⟩

/-- One stored transaction of job 3, for pagination scenarios. -/
def sampleTx : TxRecord :=
  { job_id := 3, transaction_id := "T1", user_id := "U1", amount := 100
    timestamp := 0, is_valid := true, is_suspicious := false
    error_message := none }

/-- A completed job's store of 25 transactions, in insertion order. -/
def bigStore : List TxRecord := List.replicate 25 sampleTx

/-- C8: for a completed job, the unfiltered transaction listing returns
contiguous pages of the store in insertion (source-row) order:
each page is an infix of the store, consecutive pages concatenate to one
contiguous double-length window (hence no overlap and no gap), and over
25 transactions with page size 10 pages 1–3 return 10, 10 and 5
records. -/
theorem C8_pagination (store : List TxRecord) (jid : Nat)
    (hall : ∀ t ∈ store, t.job_id = jid) (p s : Nat) (hp : 1 ≤ p) :
    transactionsQuery store jid none p s <:+: store
    ∧ transactionsQuery store jid none p s
        ++ transactionsQuery store jid none (p + 1) s
      = (store.drop ((p - 1) * s)).take (s + s)
    ∧ (store.length = 25 →
        (transactionsQuery store jid none 1 10).length = 10
        ∧ (transactionsQuery store jid none 2 10).length = 10
        ∧ (transactionsQuery store jid none 3 10).length = 5) := by
  have hq : ∀ p' s' : Nat, transactionsQuery store jid none p' s'
      = (store.drop ((p' - 1) * s')).take s' := by
    intro p' s'
    simp only [transactionsQuery, if_neg (by simp : ¬(none : Option String) = some "valid"),
      if_neg (by simp : ¬(none : Option String) = some "invalid"),
      if_neg (by simp : ¬(none : Option String) = some "suspicious")]
    rw [List.filter_eq_self.mpr (fun a ha => by simp [hall a ha])]
  refine ⟨?_, ?_, ?_⟩
  · rw [hq]
    have hpre := List.take_prefix s (store.drop ((p - 1) * s))
    exact (hpre.isInfix).trans ((List.drop_suffix _ store).isInfix)
  · rw [hq, hq]
    have h2 : s ≤ p * s := Nat.le_mul_of_pos_left s hp
    have h1 : (p - 1) * s = p * s - s := Nat.sub_one_mul p s
    have e1 : (p + 1 - 1) * s = (p - 1) * s + s := by
      rw [h1]
      simp only [Nat.add_sub_cancel]
      omega
    rw [e1, ← List.drop_drop, ← List.take_add]
  · intro h25
    refine ⟨?_, ?_, ?_⟩ <;>
      · rw [hq]
        simp only [List.length_take, List.length_drop, h25]
        omega

/-- C8 witness: the 25-transaction store paged with size 10. -/
theorem C8_pagination_witness :
    transactionsQuery bigStore 3 none 2 10 <:+: bigStore
    ∧ transactionsQuery bigStore 3 none 2 10
        ++ transactionsQuery bigStore 3 none 3 10
      = (bigStore.drop ((2 - 1) * 10)).take (10 + 10)
    ∧ ((transactionsQuery bigStore 3 none 1 10).length = 10
        ∧ (transactionsQuery bigStore 3 none 2 10).length = 10
        ∧ (transactionsQuery bigStore 3 none 3 10).length = 5) :=
  have h := C8_pagination bigStore 3 (by decide) 2 10 (by decide)
  ⟨h.1, h.2.1, h.2.2 (by decide)⟩

/-- C9: `broadcast_to_user` attempts delivery to every connection
registered for the user, and once it returns, the user's registered set
is exactly the connections whose delivery did not raise — so no failed
connection remains registered (self-healing membership). -/
theorem C9_broadcast_self_healing (m : ConnMap) (uid : Nat)
    (fails : Conn → Bool) :
    (broadcast_to_user m uid fails).1 = m uid
    ∧ (broadcast_to_user m uid fails).2 uid
        = (m uid).filter (fun c => !fails c)
    ∧ ((broadcast_to_user m uid fails).2 uid).all (fun c => !fails c)
        = true := by
  have h2 : (broadcast_to_user m uid fails).2 uid
      = (m uid).filter (fun c => !fails c) := by
    simp [broadcast_to_user, sendLoop_snd, removeDead_filter]
  refine ⟨by simp [broadcast_to_user, sendLoop_fst], h2, ?_⟩
  rw [h2, List.all_eq_true]
  intro c hc
  exact (List.mem_filter.mp hc).2

/-- C10: `GET /jobs/{job_id}` on an unknown job id does not report
not-found: it dereferences the missing job and fails with an unhandled
`AttributeError` (a 500, not a 404), whereas `start_job` on the same
input returns not-found. -/
theorem C10_job_status_missing_job :
    job_status none = Except.error ApiError.attributeErrorOnNone
    ∧ job_status none ≠ Except.error (ApiError.http 404 "Job not found")
    ∧ (∀ r : StatusResponse, job_status none ≠ Except.ok r)
    ∧ start_job none true = StartResult.notFound
    ∧ start_job none false = StartResult.notFound := by
  refine ⟨rfl, by simp [job_status], fun r => by simp [job_status], rfl, rfl⟩

end Gateway
